import Mathlib

/-!
Verification of the favorites-management subsystem of the Star Wars Flask REST
backend (`backend/routes.py`, `backend/models.py`).

The embedding is a shallow one: the relational store is a record of lists, the
JSON request body is a record of optional JSON values (restricted to the null /
boolean / integer values the favorites endpoint actually inspects), and each
Flask-RESTX view function becomes a pure Lean function from a store state and a
request to a new store state and an HTTP response.  `abort(code, msg)` raises a
werkzeug `HTTPException`; inside the views every such exception is raised inside
a `try:` block whose final clause is `except Exception`, so the embedding models
the raised exception explicitly (`PyExc`) and the `try/except` wrapper
separately, exactly as the Python control flow runs.
-/

namespace StarWars

/-- A JSON value as far as the favorites endpoint inspects one: `null`, a
boolean, or an integer (`data.get(key)` results). -/
inductive JVal
  | jnull
  | jbool (b : Bool)
  | jint (n : Int)
deriving DecidableEq, Repr

/-- Python truthiness of `data.get(key)`: a missing key (`None`), JSON `null`
(`None`), `False` and `0` are falsy; everything else here is truthy. -/
def truthy : Option JVal → Bool
  | none => false
  | some .jnull => false
  | some (.jbool b) => b
  | some (.jint n) => n != 0

/-- The integer a JSON value denotes when used as a lookup id
(`People.query.get(item_id)`), following the coercion Python applies
(`True == 1`, `False == 0`). -/
def JVal.asId : JVal → Int
  | .jnull => 0
  | .jbool b => if b then 1 else 0
  | .jint n => n

/-- `item_id = data.get(favorite_type)` used as an id. -/
def jOptAsId : Option JVal → Int
  | none => 0
  | some v => v.asId

/-- The three target columns of a `Favorite` row / keys of the request body
(routes.py line 197: `favorite_types = ['people_id', 'planet_id', 'vehicle_id']`). -/
inductive FavKey
  | people_id
  | planet_id
  | vehicle_id
deriving DecidableEq, Repr, Inhabited

/-- `['people_id', 'planet_id', 'vehicle_id']` in the order routes.py lists them. -/
def favKeys : List FavKey := [.people_id, .planet_id, .vehicle_id]

/-- The JSON body of `POST /api/favorites`: each of the three keys may be
absent (`none`) or present with a JSON value. -/
structure FavBody where
  people_id : Option JVal
  planet_id : Option JVal
  vehicle_id : Option JVal
deriving DecidableEq, Repr

/-- `data.get(key)` for the three target keys. -/
def FavBody.get (data : FavBody) : FavKey → Option JVal
  | .people_id => data.people_id
  | .planet_id => data.planet_id
  | .vehicle_id => data.vehicle_id

/-- routes.py line 198:
`provided_types = [key for key in favorite_types if data.get(key)]`. -/
def provided_types (data : FavBody) : List FavKey :=
  favKeys.filter (fun key => truthy (data.get key))

/-- A row of the `favorite` table (models.py `Favorite`): owning user plus the
three nullable target foreign keys.  The `created_at` timestamp column is not
modelled; no claim inspects it. -/
structure FavRow where
  id : Int
  user_id : Int
  people_id : Option Int
  planet_id : Option Int
  vehicle_id : Option Int
deriving DecidableEq, Repr

/-- The target column of a favorite row named by a key. -/
def FavRow.col (f : FavRow) : FavKey → Option Int
  | .people_id => f.people_id
  | .planet_id => f.planet_id
  | .vehicle_id => f.vehicle_id

/-- `setattr(favorite, favorite_type, item_id)` (routes.py line 228). -/
def FavRow.setCol (f : FavRow) : FavKey → Int → FavRow
  | .people_id, i => { f with people_id := some i }
  | .planet_id, i => { f with planet_id := some i }
  | .vehicle_id, i => { f with vehicle_id := some i }

/-- A row of the `user` table (models.py `User`); `created_at` is carried as its
already-ISO-formatted string (or `none` for SQL NULL), roles as their names. -/
structure UserRow where
  id : Int
  email : String
  password : String
  active : Bool
  fs_uniquifier : String
  created_at : Option String
  roles : List String
deriving DecidableEq, Repr

/-- The relational store: the user table, the three catalog tables (modelled by
their primary-key sets, which is all the favorites endpoint consults), the
favorite table, and the next auto-increment id for `favorite.id`. -/
structure DB where
  users : List UserRow
  people : List Int
  planets : List Int
  vehicles : List Int
  favorites : List FavRow
  next_favorite_id : Int
deriving DecidableEq, Repr

/-- The catalog table a target key refers to. -/
def DB.catalog (db : DB) : FavKey → List Int
  | .people_id => db.people
  | .planet_id => db.planets
  | .vehicle_id => db.vehicles

/-- An exception escaping the body of a `try:` block: a werkzeug
`HTTPException` raised by `favorites_ns.abort(code, msg)`, or a SQLAlchemy
`IntegrityError` raised by `db.session.commit()`. -/
inductive PyExc
  | http (code : Nat) (msg : String)
  | integrityError
deriving DecidableEq, Repr

/-- The standard reason phrase werkzeug attaches to a status code. -/
def httpName : Nat → String
  | 400 => "Bad Request"
  | 404 => "Not Found"
  | 409 => "Conflict"
  | 500 => "Internal Server Error"
  | _ => "Unknown Error"

/-- `str(e)` for a werkzeug `HTTPException`: `"<code> <name>: <description>"`. -/
def excStr (code : Nat) (msg : String) : String :=
  toString code ++ " " ++ httpName code ++ ": " ++ msg

/-- `str(e)` for any exception the modelled views can raise. -/
def PyExc.str : PyExc → String
  | .http code msg => excStr code msg
  | .integrityError => "IntegrityError"

/-- An HTTP response: status code and the user-visible message. -/
structure HttpResp where
  status : Nat
  message : String
deriving DecidableEq, Repr

/-- routes.py line 201 message. -/
def validationMsg : String :=
  "Exactly one favorite type (people_id, planet_id, or vehicle_id) must be provided"

/-- routes.py lines 224 and 240 message. -/
def alreadyFavoritedMsg : String := "This item is already in your favorites"

/-- routes.py lines 263 and 292 message. -/
def favoriteNotFoundMsg : String := "Favorite not found or doesn\x27t belong to you"

/-- routes.py lines 209/212/215 messages. -/
def targetNotFoundMsg : FavKey → Int → String
  | .people_id, i => "Person with ID " ++ toString i ++ " not found"
  | .planet_id, i => "Planet with ID " ++ toString i ++ " not found"
  | .vehicle_id, i => "Vehicle with ID " ++ toString i ++ " not found"

/-- `Favorite.query.filter_by(user_id=user_id, **{favorite_type: item_id})`
(routes.py lines 218-221): both the user column and the one named target
column must match (SQL `= NULL` never matches, hence `== some item_id`). -/
def Favorite.filter_by (user_id : Int) (fk : FavKey) (item_id : Int)
    (f : FavRow) : Bool :=
  f.user_id == user_id && f.col fk == some item_id

/-- routes.py lines 227-231: `favorite = Favorite(user_id=user_id);
setattr(favorite, favorite_type, item_id); db.session.add; db.session.commit()`
— a fresh row with the next auto-increment id, appended to the table. -/
def insertFavorite (db : DB) (user_id : Int) (fk : FavKey) (item_id : Int) : DB :=
  { db with
      favorites := db.favorites ++
        [FavRow.setCol
          { id := db.next_favorite_id, user_id := user_id,
            people_id := none, planet_id := none, vehicle_id := none } fk item_id],
      next_favorite_id := db.next_favorite_id + 1 }

/-- The body of the `try:` block of `FavoritesList.post` (routes.py lines
192-236), translated statement by statement.  `insertRaises` models whether
`db.session.commit()` raises `IntegrityError` (a store-level integrity
violation, e.g. from a concurrent duplicate insert); on any raised exception
the uncommitted session state is discarded, so errors carry no new state. -/
def FavoritesList.postTry (db : DB) (user_id : Int) (data : FavBody)
    (insertRaises : Bool) : Except PyExc (DB × HttpResp) :=
  if (provided_types data).length ≠ 1 then
    .error (.http 400 validationMsg)
  else
    let favorite_type := (provided_types data).headI
    let item_id := jOptAsId (data.get favorite_type)
    if ((db.catalog favorite_type).contains item_id) = false then
      .error (.http 404 (targetNotFoundMsg favorite_type item_id))
    else if (db.favorites.find? (Favorite.filter_by user_id favorite_type item_id)).isSome then
      .error (.http 409 alreadyFavoritedMsg)
    else if insertRaises then
      .error .integrityError
    else
      .ok (insertFavorite db user_id favorite_type item_id,
           { status := 201, message := "Favorite added successfully" })

/-- `FavoritesList.post` with its exception handlers (routes.py lines 238-243):
`except IntegrityError: rollback; abort(409, ...)` first, then
`except Exception as e: rollback; abort(500, f"Error adding favorite: {str(e)}")`.
Note the second clause also catches the `HTTPException`s raised by the 400/404/409
`abort` calls inside the `try:` block, re-surfacing them as 500. -/
def FavoritesList.post (db : DB) (user_id : Int) (data : FavBody)
    (insertRaises : Bool) : DB × HttpResp :=
  match FavoritesList.postTry db user_id data insertRaises with
  | .ok res => res
  | .error .integrityError => (db, { status := 409, message := alreadyFavoritedMsg })
  | .error e => (db, { status := 500, message := "Error adding favorite: " ++ e.str })

/-- The body of the `try:` block of `FavoriteResource.delete` (routes.py lines
255-271): look up the row by `(id, user_id)`, 404-abort when absent, else
delete the found row (primary-key delete) and report success. -/
def FavoriteResource.deleteTry (db : DB) (user_id : Int) (favorite_id : Int) :
    Except PyExc (DB × HttpResp) :=
  if (db.favorites.find? (fun f => f.id == favorite_id && f.user_id == user_id)).isSome = false then
    .error (.http 404 favoriteNotFoundMsg)
  else
    .ok ({ db with favorites := db.favorites.filter (fun f => (f.id == favorite_id) = false) },
         { status := 200, message := "Favorite deleted successfully" })

/-- `FavoriteResource.delete` with its handler (routes.py lines 273-275):
`except Exception as e: rollback; abort(500, f"Error deleting favorite: {str(e)}")` —
which also catches the 404 abort raised inside the `try:` block. -/
def FavoriteResource.delete (db : DB) (user_id : Int) (favorite_id : Int) :
    DB × HttpResp :=
  match FavoriteResource.deleteTry db user_id favorite_id with
  | .ok res => res
  | .error e => (db, { status := 500, message := "Error deleting favorite: " ++ e.str })

/-- The body of the `try:` block of `FavoriteResource.get` (routes.py lines
284-294): the successful branch returns the found favorite row (serialized on
the wire). -/
def FavoriteResource.getTry (db : DB) (user_id : Int) (favorite_id : Int) :
    Except PyExc FavRow :=
  match db.favorites.find? (fun f => f.id == favorite_id && f.user_id == user_id) with
  | some favorite => .ok favorite
  | none => .error (.http 404 favoriteNotFoundMsg)

/-- Outcome of `GET /api/favorites/<id>`: the favorite payload, or an error
response. -/
inductive GetResult
  | found (f : FavRow)
  | failed (r : HttpResp)
deriving DecidableEq, Repr

/-- `FavoriteResource.get` with its handler (routes.py lines 296-297):
`except Exception as e: abort(500, f"Error fetching favorite: {str(e)}")` —
which also catches the 404 abort raised inside the `try:` block. -/
def FavoriteResource.get (db : DB) (user_id : Int) (favorite_id : Int) : GetResult :=
  match FavoriteResource.getTry db user_id favorite_id with
  | .ok favorite => .found favorite
  | .error e => .failed { status := 500, message := "Error fetching favorite: " ++ e.str }

/-- A JSON value appearing in a serialized payload. -/
inductive Value
  | vint (n : Int)
  | vstr (s : String)
  | vbool (b : Bool)
  | vlist (l : List Value)
  | vnull

/-- `User.serialize` (models.py lines 77-87), as the ordered key/value list of
the returned dict.  `len(self.favorites)` counts the rows of the `favorite`
table whose `user_id` backref points at this user. -/
def User.serialize (db : DB) (u : UserRow) : List (String × Value) :=
  [("id", .vint u.id),
   ("email", .vstr u.email),
   ("is_active", .vbool u.active),
   ("roles", .vlist (u.roles.map .vstr)),
   ("fs_uniquifier", .vstr u.fs_uniquifier),
   ("created_at", match u.created_at with | some t => .vstr t | none => .vnull),
   ("favorites_count", .vint ((db.favorites.filter (fun f => f.user_id == u.id)).length : Int))]

/-- Deleting a `User` row through the ORM: the `User.favorites` relationship is
declared `cascade="all, delete-orphan"` (models.py lines 49-51) and
`Favorite.user_id` with `ondelete="CASCADE"` (models.py lines 178-180), so the
user row and every favorite row owned by it are deleted; no other table is
touched. -/
def deleteUser (db : DB) (user_id : Int) : DB :=
  { db with
      users := db.users.filter (fun u => (u.id == user_id) = false),
      favorites := db.favorites.filter (fun f => (f.user_id == user_id) = false) }

/-- Python truthiness of a nullable integer column (`if self.people_id:`):
NULL and 0 are falsy. -/
def intTruthy : Option Int → Bool
  | none => false
  | some n => n != 0

/-- The `favorite_type` property (models.py lines 205-214), testing the three
columns with Python truthiness in the order people, planet, vehicle. -/
def Favorite.favorite_type (f : FavRow) : Option String :=
  if intTruthy f.people_id then some "people"
  else if intTruthy f.planet_id then some "planet"
  else if intTruthy f.vehicle_id then some "vehicle"
  else none

/-- The `check_at_least_one_favorite` table constraint (models.py lines
198-203): `people_id IS NOT NULL OR planet_id IS NOT NULL OR vehicle_id IS NOT NULL`. -/
def check_at_least_one_favorite (f : FavRow) : Bool :=
  f.people_id.isSome || f.planet_id.isSome || f.vehicle_id.isSome

/-- The claim reading of `favorite_type`: the first target in the priority
order people, planet, vehicle whose column is SET, i.e. non-null. -/
def firstSetTarget (f : FavRow) : Option String :=
  if f.people_id.isSome then some "people"
  else if f.planet_id.isSome then some "planet"
  else if f.vehicle_id.isSome then some "vehicle"
  else none

/-- What `favorite_type` actually computes, phrased over the priority list:
the first name in the order people, planet, vehicle whose column holds a
truthy (non-null, nonzero) id. -/
def firstTruthyTarget (f : FavRow) : Option String :=
  ((([("people", f.people_id), ("planet", f.planet_id), ("vehicle", f.vehicle_id)]).filter
    (fun p => intTruthy p.2)).head?).map Prod.fst

/-- A small concrete store used to instantiate the theorems: person 1 and
planet 1 exist, the favorite table is empty. -/
def db0 : DB :=
  { users := [], people := [1], planets := [1], vehicles := [],
    favorites := [], next_favorite_id := 1 }

/-! ## Helper lemmas -/

lemma insertFavorite_catalog (db : DB) (u : Int) (fk : FavKey) (i : Int) (k : FavKey) :
    (insertFavorite db u fk i).catalog k = db.catalog k := by
  cases k <;> rfl

lemma setCol_filter_by (base : FavRow) (u : Int) (fk : FavKey) (i : Int)
    (hu : base.user_id = u) :
    Favorite.filter_by u fk i (FavRow.setCol base fk i) = true := by
  cases fk <;> simp [Favorite.filter_by, FavRow.setCol, FavRow.col, hu]

lemma postTry_singleton (db : DB) (user_id : Int) (data : FavBody) (fk : FavKey)
    (insertRaises : Bool) (hp : provided_types data = [fk]) :
    FavoritesList.postTry db user_id data insertRaises =
      (if ((db.catalog fk).contains (jOptAsId (data.get fk))) = false then
        .error (.http 404 (targetNotFoundMsg fk (jOptAsId (data.get fk))))
      else if (db.favorites.find? (Favorite.filter_by user_id fk (jOptAsId (data.get fk)))).isSome then
        .error (.http 409 alreadyFavoritedMsg)
      else if insertRaises then
        .error .integrityError
      else
        .ok (insertFavorite db user_id fk (jOptAsId (data.get fk)),
             { status := 201, message := "Favorite added successfully" })) := by
  unfold FavoritesList.postTry
  rw [hp]
  simp [List.headI]

lemma post_of_postTry_http (db : DB) (user_id : Int) (data : FavBody) (b : Bool)
    (c : Nat) (m : String)
    (h : FavoritesList.postTry db user_id data b = .error (.http c m)) :
    FavoritesList.post db user_id data b =
      (db, { status := 500, message := "Error adding favorite: " ++ excStr c m }) := by
  unfold FavoritesList.post
  rw [h]
  rfl

lemma post_of_postTry_ok (db : DB) (user_id : Int) (data : FavBody) (b : Bool)
    (res : DB × HttpResp)
    (h : FavoritesList.postTry db user_id data b = .ok res) :
    FavoritesList.post db user_id data b = res := by
  unfold FavoritesList.post
  rw [h]

lemma post_of_postTry_integrity (db : DB) (user_id : Int) (data : FavBody) (b : Bool)
    (h : FavoritesList.postTry db user_id data b = .error .integrityError) :
    FavoritesList.post db user_id data b =
      (db, { status := 409, message := alreadyFavoritedMsg }) := by
  unfold FavoritesList.post
  rw [h]

/-! ## Claim theorems -/

/-- Claim C6: deleting a User removes exactly that user's Favorite rows from
the ledger (a row survives iff it was there and belongs to a different user),
leaves every other user's row in the user table, and leaves the three catalog
tables unchanged. -/
theorem delete_user_cascades_favorites (db : DB) (uid : Int) :
    (∀ f : FavRow, f ∈ (deleteUser db uid).favorites ↔ (f ∈ db.favorites ∧ f.user_id ≠ uid)) ∧
    (deleteUser db uid).people = db.people ∧
    (deleteUser db uid).planets = db.planets ∧
    (deleteUser db uid).vehicles = db.vehicles ∧
    (∀ u : UserRow, u ∈ (deleteUser db uid).users ↔ (u ∈ db.users ∧ u.id ≠ uid)) := by
  refine ⟨fun f => ?_, rfl, rfl, rfl, fun u => ?_⟩ <;>
    simp [deleteUser, List.mem_filter]

/-- Claim C7: the wire serialization of a User consists of the keys id, email,
is_active, roles, fs_uniquifier, created_at, favorites_count — in particular it
contains id, email, is_active, roles and created_at, it contains no "password"
key, and the whole payload is independent of the stored password hash. -/
theorem user_serialize_fields_no_password (db : DB) (u : UserRow) :
    (User.serialize db u).map Prod.fst =
      ["id", "email", "is_active", "roles", "fs_uniquifier", "created_at", "favorites_count"] ∧
    "password" ∉ (User.serialize db u).map Prod.fst ∧
    (∀ p : String, User.serialize db { u with password := p } = User.serialize db u) := by
  refine ⟨rfl, ?_, fun p => rfl⟩
  simp [User.serialize]

/-- Claim C10: beyond the documented wire fields, User.serialize always also
emits fs_uniquifier (the token-binding identifier) and favorites_count (the
number of favorite rows owned by the user). -/
theorem user_serialize_extra_fields (db : DB) (u : UserRow) :
    ("fs_uniquifier", Value.vstr u.fs_uniquifier) ∈ User.serialize db u ∧
    ("favorites_count",
      Value.vint ((db.favorites.filter (fun f => f.user_id == u.id)).length : Int)) ∈
        User.serialize db u := by
  constructor <;> simp [User.serialize]

/-- Claim C8, counterexample: the row (people_id = 0, planet_id = 1) satisfies
the check constraint and has more than one target set (non-null), its first
set target in priority order is people, yet favorite_type reports planet —
because the property tests Python truthiness, not nullness. -/
theorem favorite_type_not_first_set_target :
    check_at_least_one_favorite ⟨1, 1, some 0, some 1, none⟩ = true ∧
    (⟨1, 1, some 0, some 1, none⟩ : FavRow).people_id.isSome = true ∧
    (⟨1, 1, some 0, some 1, none⟩ : FavRow).planet_id.isSome = true ∧
    firstSetTarget ⟨1, 1, some 0, some 1, none⟩ = some "people" ∧
    Favorite.favorite_type ⟨1, 1, some 0, some 1, none⟩ = some "planet" := by
  refine ⟨rfl, rfl, rfl, rfl, rfl⟩

/-- Claim C8, amended: the schema constraint check_at_least_one_favorite
demands only that at least one of the three target columns is non-null, and
favorite_type reports the first target in the fixed priority order people,
planet, vehicle whose column holds a truthy id (non-null and nonzero), none
when no column does. -/
theorem favorite_type_first_truthy_target (f : FavRow) :
    (check_at_least_one_favorite f = true ↔
      (f.people_id ≠ none ∨ f.planet_id ≠ none ∨ f.vehicle_id ≠ none)) ∧
    Favorite.favorite_type f = firstTruthyTarget f := by
  obtain ⟨i, u, p, pl, v⟩ := f
  constructor
  · simp [check_at_least_one_favorite, Option.isSome_iff_ne_none, or_assoc]
  · cases p <;> cases pl <;> cases v <;>
      simp [Favorite.favorite_type, firstTruthyTarget, intTruthy] <;>
      split_ifs <;> simp_all

/-- Claim C9: a target key present with a falsy JSON value (0, null, false)
counts as absent — the body (people_id = 0, planet_id = 1) passes the
exactly-one validation and creates a planet favorite, while the bodies whose
only present targets are falsy are rejected by the validation step; the
rejection however surfaces as status 500 wrapping the 400 abort, because the
blanket `except Exception` clause catches the abort. -/
theorem post_truthiness_behavior :
    FavoritesList.post db0 1 ⟨some (.jint 0), some (.jint 1), none⟩ false =
      ({ db0 with
          favorites := [⟨1, 1, none, some 1, none⟩], next_favorite_id := 2 },
       { status := 201, message := "Favorite added successfully" }) ∧
    FavoritesList.post db0 1 ⟨some (.jint 0), none, none⟩ false =
      (db0, { status := 500, message := "Error adding favorite: " ++ excStr 400 validationMsg }) ∧
    FavoritesList.post db0 1 ⟨some .jnull, some (.jbool false), none⟩ false =
      (db0, { status := 500, message := "Error adding favorite: " ++ excStr 400 validationMsg }) := by
  refine ⟨rfl, rfl, rfl⟩

/-- Claim C2: when the number of truthy-supplied target keys is zero or at
least two, addFavorite rejects the request at the validation step regardless
of the combination, and the store is returned unchanged (no row created).
The rejection surfaces as status 500 wrapping the 400 abort, because the
blanket `except Exception` clause catches the abort. -/
theorem post_validation_rejection (db : DB) (user_id : Int) (data : FavBody)
    (h : (provided_types data).length = 0 ∨ 2 ≤ (provided_types data).length) :
    FavoritesList.post db user_id data false =
      (db, { status := 500, message := "Error adding favorite: " ++ excStr 400 validationMsg }) := by
  have hne : (provided_types data).length ≠ 1 := by rcases h with h | h <;> omega
  apply post_of_postTry_http
  unfold FavoritesList.postTry
  rw [if_pos hne]

/-- Witness for C2: the empty body supplies zero targets and is rejected with
the store unchanged. -/
theorem post_validation_rejection_witness :
    FavoritesList.post db0 1 ⟨none, none, none⟩ false =
      (db0, { status := 500, message := "Error adding favorite: " ++ excStr 400 validationMsg }) :=
  post_validation_rejection db0 1 ⟨none, none, none⟩ (Or.inl rfl)

/-- Claim C3: when exactly one target key is supplied but its id is absent
from the corresponding catalog table, addFavorite fails at the existence check
and the store is returned unchanged — no row is written.  The failure surfaces
as status 500 wrapping the 404 abort, because the blanket `except Exception`
clause catches the abort. -/
theorem post_missing_target_rejection (db : DB) (user_id : Int) (fk : FavKey)
    (data : FavBody) (i : Int)
    (hp : provided_types data = [fk])
    (hv : data.get fk = some (JVal.jint i))
    (hcat : ((db.catalog fk).contains i) = false) :
    FavoritesList.post db user_id data false =
      (db, { status := 500,
             message := "Error adding favorite: " ++ excStr 404 (targetNotFoundMsg fk i) }) := by
  apply post_of_postTry_http
  rw [postTry_singleton db user_id data fk false hp, hv]
  simp only [jOptAsId, JVal.asId, hcat]
  simp

/-- Witness for C3: vehicle 5 is not in the (empty) vehicle catalog, so the
request fails the existence check with the store unchanged. -/
theorem post_missing_target_rejection_witness :
    FavoritesList.post db0 1 ⟨none, none, some (JVal.jint 5)⟩ false =
      (db0, { status := 500,
              message := "Error adding favorite: " ++
                excStr 404 (targetNotFoundMsg FavKey.vehicle_id 5) }) :=
  post_missing_target_rejection db0 1 FavKey.vehicle_id ⟨none, none, some (JVal.jint 5)⟩ 5
    rfl rfl rfl

/-- Claim C1: with a single supplied target whose id exists in its catalog and
no matching favorite in the ledger, the first addFavorite succeeds with 201
and inserts the row; the identical repeat request hits the duplicate pre-check,
whose 409 abort is however caught by the blanket `except Exception` clause and
surfaces as status 500 (with the ledger unchanged by the repeat); afterwards
the ledger holds exactly one favorite matching (user, kind, id). -/
theorem post_duplicate_add_behavior (db : DB) (user_id : Int) (fk : FavKey)
    (data : FavBody) (i : Int)
    (hp : provided_types data = [fk])
    (hv : data.get fk = some (JVal.jint i))
    (hcat : ((db.catalog fk).contains i) = true)
    (hfind : db.favorites.find? (Favorite.filter_by user_id fk i) = none) :
    FavoritesList.post db user_id data false =
      (insertFavorite db user_id fk i,
       { status := 201, message := "Favorite added successfully" }) ∧
    FavoritesList.post (insertFavorite db user_id fk i) user_id data false =
      (insertFavorite db user_id fk i,
       { status := 500, message := "Error adding favorite: " ++ excStr 409 alreadyFavoritedMsg }) ∧
    ((insertFavorite db user_id fk i).favorites.filter
      (Favorite.filter_by user_id fk i)).length = 1 := by
  have hempty : db.favorites.filter (Favorite.filter_by user_id fk i) = [] := by
    refine List.filter_eq_nil_iff.mpr (fun a ha => ?_)
    have := List.find?_eq_none.mp hfind a ha
    simpa using this
  have hnew : Favorite.filter_by user_id fk i
      (FavRow.setCol
        { id := db.next_favorite_id, user_id := user_id,
          people_id := none, planet_id := none, vehicle_id := none } fk i) = true :=
    setCol_filter_by _ user_id fk i rfl
  have hfind2 : ((insertFavorite db user_id fk i).favorites.find?
      (Favorite.filter_by user_id fk i)).isSome = true := by
    rw [Option.isSome_iff_ne_none]
    intro hnone
    have hall := List.find?_eq_none.mp hnone
    exact (hall _ (by simp [insertFavorite]) hnew).elim
  refine ⟨?_, ?_, ?_⟩
  · apply post_of_postTry_ok
    rw [postTry_singleton db user_id data fk false hp, hv]
    simp only [jOptAsId, JVal.asId, hcat, hfind]
    simp
  · apply post_of_postTry_http
    rw [postTry_singleton (insertFavorite db user_id fk i) user_id data fk false hp, hv]
    simp only [insertFavorite_catalog, jOptAsId, JVal.asId, hcat, hfind2]
    simp
  · simp [insertFavorite, List.filter_append, hempty, hnew]

/-- Witness for C1: user 1 favorites person 1 (present in the catalog) twice
starting from an empty ledger. -/
theorem post_duplicate_add_behavior_witness :
    FavoritesList.post db0 1 ⟨some (JVal.jint 1), none, none⟩ false =
      (insertFavorite db0 1 FavKey.people_id 1,
       { status := 201, message := "Favorite added successfully" }) ∧
    FavoritesList.post (insertFavorite db0 1 FavKey.people_id 1) 1
        ⟨some (JVal.jint 1), none, none⟩ false =
      (insertFavorite db0 1 FavKey.people_id 1,
       { status := 500, message := "Error adding favorite: " ++ excStr 409 alreadyFavoritedMsg }) ∧
    ((insertFavorite db0 1 FavKey.people_id 1).favorites.filter
      (Favorite.filter_by 1 FavKey.people_id 1)).length = 1 :=
  post_duplicate_add_behavior db0 1 FavKey.people_id ⟨some (JVal.jint 1), none, none⟩ 1
    rfl rfl rfl rfl

/-- Claim C5: when the request passes validation, existence and duplicate
checks but the commit of the insert raises a store-level IntegrityError, the
handler rolls the session back (the returned store is the original one, no row
kept) and surfaces 409 AlreadyFavorited — not a generic 500 — because the
`except IntegrityError` clause precedes the blanket `except Exception`. -/
theorem post_integrity_error_yields_conflict (db : DB) (user_id : Int) (fk : FavKey)
    (data : FavBody) (i : Int)
    (hp : provided_types data = [fk])
    (hv : data.get fk = some (JVal.jint i))
    (hcat : ((db.catalog fk).contains i) = true)
    (hfind : db.favorites.find? (Favorite.filter_by user_id fk i) = none) :
    FavoritesList.post db user_id data true =
      (db, { status := 409, message := alreadyFavoritedMsg }) := by
  apply post_of_postTry_integrity
  rw [postTry_singleton db user_id data fk true hp, hv]
  simp only [jOptAsId, JVal.asId, hcat, hfind]
  simp

/-- Witness for C5: user 1 adds planet 1 while the commit raises
IntegrityError; the response is 409 and the store is unchanged. -/
theorem post_integrity_error_yields_conflict_witness :
    FavoritesList.post db0 1 ⟨none, some (JVal.jint 1), none⟩ true =
      (db0, { status := 409, message := alreadyFavoritedMsg }) :=
  post_integrity_error_yields_conflict db0 1 FavKey.planet_id ⟨none, some (JVal.jint 1), none⟩ 1
    rfl rfl rfl rfl

/-- Claim C4: when no favorite row has both the requested id and the
requesting user as owner — i.e. the id belongs to another user or does not
exist at all — fetching and deleting return one fixed failure response that
does not depend on which of the two cases holds (no ownership leak), no
favorite data is returned, and the store is returned unchanged.  The failure
surfaces as status 500 wrapping the 404 abort, because the blanket
`except Exception` clause catches the abort. -/
theorem favorite_ownership_isolation (db : DB) (a fid : Int)
    (h : db.favorites.find? (fun f => f.id == fid && f.user_id == a) = none) :
    FavoriteResource.delete db a fid =
      (db, { status := 500, message := "Error deleting favorite: " ++ excStr 404 favoriteNotFoundMsg }) ∧
    FavoriteResource.get db a fid =
      .failed { status := 500, message := "Error fetching favorite: " ++ excStr 404 favoriteNotFoundMsg } := by
  constructor
  · unfold FavoriteResource.delete FavoriteResource.deleteTry
    rw [h]
    rfl
  · unfold FavoriteResource.get FavoriteResource.getTry
    rw [h]
    rfl

/-- Witness for C4: user 1 tries to fetch and delete favorite 7, which belongs
to user 2; both fail with the fixed response and user 2's row survives. -/
theorem favorite_ownership_isolation_witness :
    FavoriteResource.delete { db0 with favorites := [⟨7, 2, some 1, none, none⟩] } 1 7 =
      ({ db0 with favorites := [⟨7, 2, some 1, none, none⟩] },
       { status := 500, message := "Error deleting favorite: " ++ excStr 404 favoriteNotFoundMsg }) ∧
    FavoriteResource.get { db0 with favorites := [⟨7, 2, some 1, none, none⟩] } 1 7 =
      .failed { status := 500, message := "Error fetching favorite: " ++ excStr 404 favoriteNotFoundMsg } :=
  favorite_ownership_isolation { db0 with favorites := [⟨7, 2, some 1, none, none⟩] } 1 7 rfl

end StarWars
